import Mathlib

/-!
Shallow embedding of the Tally browser-extension wallet's provider-bridge
service (`ProviderBridgeService`): the origin-authorization gate and RPC
routing engine. Pure data is embedded as Lean structures; the stateful
service methods become explicit state-passing functions that additionally
return a trace of observable effects (popup opened/closed, internal
dispatch, event emissions, pending-consent resolutions) and the messages
posted back on channels.
-/

namespace ProviderBridge

/-- JavaScript values as they appear in RPC params / results.  `jundef`
models the JavaScript `undefined` value (distinct from JSON `null`), which
arises from out-of-range indexing and from optional arguments that were
not passed. -/
inductive JSON where
  | jnull
  | jundef
  | jbool (b : Bool)
  | jnum (n : Int)
  | jstr (s : String)
  | jarr (xs : List JSON)
  | jobj (fields : List (String × JSON))

/-- A request/response envelope id: the content script may use strings or
numbers; wallet-originated pushes use the fixed string "tallyHo". -/
inductive RId where
  | str (s : String)
  | num (n : Int)
deriving DecidableEq, Repr

/-- The fixed sentinel id reserved for wallet-originated messages. -/
def sentinelId : RId := .str "tallyHo"

/-- Inbound RPC request carried inside a port message. -/
structure RPCRequest where
  method : String
  params : List JSON

/-- Inbound envelope: `{id, request}`. -/
structure PortRequestEvent where
  id : RId
  request : RPCRequest

/-- Outbound envelope: `{id, result}`. -/
structure PortResponseEvent where
  id : RId
  result : JSON

/-- A permission request / grant record (`PermissionRequest` in the
source): identifies one origin's standing authorization for one account. -/
structure PermissionRequest where
  key : String
  origin : String
  faviconUrl : String
  title : String
  state : String
  accountAddress : String
deriving DecidableEq, Repr

/-- An EIP-1193-style error: `{code, message}`. -/
structure EIP1193ErrorCode where
  code : Int
  message : String
deriving DecidableEq, Repr

/-- Modelled from the spec: the `EIP1193_ERROR_CODES` table of the
`provider-bridge-shared` package (not under `src/`); the spec describes a
two-code error vocabulary reported to the page with standard EIP-1193
rejection codes. -/
def EIP1193_ERROR_CODES.unauthorized : EIP1193ErrorCode :=
  { code := 4100
    message :=
      "The requested account and/or method has not been authorized by the user." }

/-- Modelled from the spec: the `userRejectedRequest` entry of
`EIP1193_ERROR_CODES` in the `provider-bridge-shared` package (not under
`src/`). -/
def EIP1193_ERROR_CODES.userRejectedRequest : EIP1193ErrorCode :=
  { code := 4001, message := "The user rejected the request." }

/-- Modelled from the spec: `new EIP1193Error(code).toJSON()` from the
`provider-bridge-shared` package (not under `src/`); the spec describes the
error-shaped result as an EIP-1193-style error object `\x7bcode, message\x7d`. -/
def EIP1193ErrorJSON (e : EIP1193ErrorCode) : JSON :=
  .jobj [("code", .jnum e.code), ("message", .jstr e.message)]

/-- Modelled from the spec: `isTallyConfigPayload` from the
`provider-bridge-shared` package (not under `src/`); the spec says internal
wallet-config queries are distinguished by a recognized reserved method
shape (the `tally_getConfig` method). -/
def isTallyConfigPayload (r : RPCRequest) : Bool :=
  r.method = "tally_getConfig"

/-- Modelled from the spec: the fixed allowed website origin
(`WEBSITE_ORIGIN` from `constants/website`, not under `src/`) against which
claim-referral messages are validated. -/
def WEBSITE_ORIGIN : String := "https://tally.cash"

/-- Modelled from the spec: the popup flow-kind pages
(`AllowedQueryParamPage` from the `provider-bridge-shared` package, not
under `src/`): permission request, transaction sign, message sign,
typed-data sign. -/
def AllowedQueryParamPage.dappPermission : String := "dapp-permission"

/-- Modelled from the spec: the typed-data-sign popup page. -/
def AllowedQueryParamPage.signData : String := "sign-data"

/-- Modelled from the spec: the message-sign popup page. -/
def AllowedQueryParamPage.personalSignData : String := "personal-sign-data"

/-- Modelled from the spec: the transaction-sign popup page. -/
def AllowedQueryParamPage.signTransaction : String := "sign-transaction"

/-! ### Permission store (modelled from the spec)

The `ProviderBridgeServiceDatabase` (`./db`, not under `src/`) is, per the
spec, a dumb durable map from `(origin, account)` to grant record: `put`
upserts on the key derived from `(origin, accountAddress)`, `get` is a
side-effect-free lookup, `delete` removes the entry and is a no-op when
absent. -/

/-- The durable permission store: a list of grant records, keyed by
`(origin, accountAddress)`. -/
abbrev Store := List PermissionRequest

/-- Modelled from the spec: `db.checkPermission(origin, address)` — lookup
of the grant for the `(origin, account)` pair, no side effects. -/
def storeGet (s : Store) (origin address : String) : Option PermissionRequest :=
  s.find? fun p => p.origin = origin && p.accountAddress = address

/-- Modelled from the spec: `db.setPermission(permission)` — upsert on the
`(origin, accountAddress)` key. -/
def storePut (s : Store) (perm : PermissionRequest) : Store :=
  match s with
  | [] => [perm]
  | p :: rest =>
      if p.origin = perm.origin && p.accountAddress = perm.accountAddress then
        perm :: rest
      else
        p :: storePut rest perm

/-- Modelled from the spec: `db.deletePermission(origin, address)` —
removes the entry; no-op (not an error) if absent. -/
def storeDelete (s : Store) (origin address : String) : Store :=
  s.filter fun p => !(p.origin = origin && p.accountAddress = address)

/-! ### Pending-consent table

`#pendingPermissionsRequests` is a plain JavaScript object mapping an
origin to the resolver of the promise blocking that origin's
`eth_requestAccounts` call.  Resolvers are modelled as opaque numeric
tokens; property assignment overwrites an existing key in place, `delete`
removes it. -/

/-- The in-memory pending-consent table: origin ↦ resolver token. -/
abbrev Pending := List (String × Nat)

/-- JavaScript object property read: first binding for the key. -/
def objGet (t : Pending) (k : String) : Option Nat :=
  (t.find? fun e => e.1 = k).map (·.2)

/-- JavaScript object property assignment: overwrites the binding in place
when the key is present, appends otherwise. -/
def objSet (t : Pending) (k : String) (v : Nat) : Pending :=
  match t with
  | [] => [(k, v)]
  | (k', v') :: rest =>
      if k' = k then (k, v) :: rest else (k', v') :: objSet rest k v

/-- JavaScript `delete` of an object property. -/
def objDel (t : Pending) (k : String) : Pending :=
  t.filter fun e => e.1 ≠ k

/-- Number of bindings a table holds for a key. -/
def countKey (t : Pending) (k : String) : Nat :=
  (t.filter fun e => e.1 = k).length

/-! ### Service state and observable effects -/

/-- The value a pending-consent resolver is invoked with: `grantPermission`
passes the permission record, `denyOrRevokePermission` passes the string
"Time to move on". -/
inductive ResolutionValue where
  | perm (p : PermissionRequest)
  | msg (s : String)

/-- Observable effects of the service's operations. -/
inductive Effect where
  | popupOpened (page : String)
  | popupClosed
  | internalDispatch (method : String) (params : List JSON)
  | emitRequestPermission (req : PermissionRequest)
  | emitSetClaimReferrer (referrer : String)
  | resolvePending (origin : String) (resolver : Nat) (value : ResolutionValue)

/-- The mutable state of a `ProviderBridgeService` instance together with
its collaborators' state: the durable permission store, the in-memory
pending-consent table, the preference service's selected account and
default-wallet flag, and the origins of the open ports. -/
structure ServiceState where
  store : Store
  pending : Pending
  selectedAccount : String
  defaultWallet : Bool
  openPorts : List String

/-- The internal signing/network collaborator
(`internalEthereumProviderService.routeSafeRPCRequest`): a single dispatch
call that may fail (throw). -/
abbrev Dispatch := String → List JSON → Except String JSON

/-- `checkPermission(origin, address?)`: looks up the grant for
`(origin, address ?? selectedAccount)`. -/
def checkPermission (st : ServiceState) (origin : String)
    (address : Option String) : Option PermissionRequest :=
  storeGet st.store origin (address.getD st.selectedAccount)

/-! ### Authorization policy (modelled from the spec)

The pure checkers of `./authorization` (not under `src/`): stateless
predicate functions, one per privileged method family, each taking the
decoded call parameter and the candidate grant and either returning
normally or failing with `UnauthorizedSigner`. -/

/-- Normalization used for the case-insensitive hex compare of addresses:
lower-case every character. -/
def normalizeHex (s : String) : String := String.mk (s.data.map Char.toLower)

/-- Modelled from the spec: `checkPermissionSign` (`./authorization`, not
under `src/`) — the address embedded in the call's signing-account
parameter must equal the grant's `accountAddress`, case-insensitive hex
compare after normalization; fails with `UnauthorizedSigner` otherwise. -/
def checkPermissionSign (address : JSON) (grant : PermissionRequest) :
    Except String Unit :=
  match address with
  | .jstr s =>
      if normalizeHex s = normalizeHex grant.accountAddress then .ok ()
      else .error "UnauthorizedSigner"
  | _ => .error "UnauthorizedSigner"

/-- Modelled from the spec: `checkPermissionSignTypedData`
(`./authorization`, not under `src/`) — same check as message signing,
against the account field carried with the typed payload. -/
def checkPermissionSignTypedData (address : JSON) (grant : PermissionRequest) :
    Except String Unit :=
  match address with
  | .jstr s =>
      if normalizeHex s = normalizeHex grant.accountAddress then .ok ()
      else .error "UnauthorizedSigner"
  | _ => .error "UnauthorizedSigner"

/-- Field lookup on a JavaScript object value; `jundef` when the value is
not an object or the field is absent. -/
def jsonField (v : JSON) (k : String) : JSON :=
  let dflt : JSON := .jundef
  match v with
  | .jobj fields => ((fields.find? fun f => f.1 = k).map (·.2)).getD dflt
  | _ => dflt

/-- Modelled from the spec: `checkPermissionSignTransaction`
(`./authorization`, not under `src/`) — the transaction's `from` field must
equal the grant's `accountAddress`; if absent, reject. -/
def checkPermissionSignTransaction (transactionRequest : JSON)
    (grant : PermissionRequest) : Except String Unit :=
  match jsonField transactionRequest "from" with
  | .jstr s =>
      if normalizeHex s = normalizeHex grant.accountAddress then .ok ()
      else .error "UnauthorizedSigner"
  | _ => .error "UnauthorizedSigner"

/-! ### RPC router -/

/-- `routeSafeRequest(method, params, popupPromise)`: opens the popup,
forwards the call to the internal signing/network service and, on
settlement (success or failure), closes the popup.  A thrown dispatch
error propagates to the caller after the `finally` cleanup. -/
def routeSafeRequest (svc : Dispatch) (method : String) (params : List JSON)
    (page : String) : Except String JSON × List Effect :=
  (svc method params,
   [.popupOpened page, .internalDispatch method params, .popupClosed])

/-- JavaScript array indexing `params[i]`: `undefined` out of range. -/
def paramAt (params : List JSON) (i : Nat) : JSON :=
  (params.getD i .jundef : JSON)

/-- `routeContentScriptRPCRequest(enablingPermission, method, params)`:
the per-method switch run for a call that holds a grant, with the single
outer try/catch that converts any thrown error into the
`userRejectedRequest` error object. -/
def routeContentScriptRPCRequest (svc : Dispatch)
    (enablingPermission : PermissionRequest) (method : String)
    (params : List JSON) : JSON × List Effect :=
  if method = "eth_requestAccounts" ∨ method = "eth_accounts" then
    (.jarr [.jstr enablingPermission.accountAddress], [])
  else if method = "eth_signTypedData" ∨ method = "eth_signTypedData_v1" ∨
      method = "eth_signTypedData_v3" ∨ method = "eth_signTypedData_v4" then
    match checkPermissionSignTypedData (paramAt params 0) enablingPermission with
    | .error _ => (EIP1193ErrorJSON EIP1193_ERROR_CODES.userRejectedRequest, [])
    | .ok _ =>
        match routeSafeRequest svc method params AllowedQueryParamPage.signData with
        | (.ok v, effs) => (v, effs)
        | (.error _, effs) =>
            (EIP1193ErrorJSON EIP1193_ERROR_CODES.userRejectedRequest, effs)
  else if method = "eth_sign" ∨ method = "personal_sign" then
    match checkPermissionSign (paramAt params 1) enablingPermission with
    | .error _ => (EIP1193ErrorJSON EIP1193_ERROR_CODES.userRejectedRequest, [])
    | .ok _ =>
        match routeSafeRequest svc method params
            AllowedQueryParamPage.personalSignData with
        | (.ok v, effs) => (v, effs)
        | (.error _, effs) =>
            (EIP1193ErrorJSON EIP1193_ERROR_CODES.userRejectedRequest, effs)
  else if method = "eth_signTransaction" ∨ method = "eth_sendTransaction" then
    match checkPermissionSignTransaction (paramAt params 0) enablingPermission with
    | .error _ => (EIP1193ErrorJSON EIP1193_ERROR_CODES.userRejectedRequest, [])
    | .ok _ =>
        match routeSafeRequest svc method params
            AllowedQueryParamPage.signTransaction with
        | (.ok v, effs) => (v, effs)
        | (.error _, effs) =>
            (EIP1193ErrorJSON EIP1193_ERROR_CODES.userRejectedRequest, effs)
  else
    match svc method params with
    | .ok v => (v, [.internalDispatch method params])
    | .error _ =>
        (EIP1193ErrorJSON EIP1193_ERROR_CODES.userRejectedRequest,
         [.internalDispatch method params])

/-! ### Message gateway -/

/-- The outcome of handling one inbound port message up to its first (and,
for most paths, only) completion point: either the handler returned
without posting anything, or it posted a reply on the originating port, or
it called `requestPermission` and suspended awaiting the user's consent
decision (the `await blockUntilUserAction` point of `onMessageListener`). -/
inductive ListenerStep where
  | drop
  | reply (resp : PortResponseEvent)
  | awaitConsent (req : PermissionRequest)

/-- `onMessageListener(port, event)` up to its suspension point.
`senderOrigin` is the origin derived from the port's `sender.url`
(`none` models an undefined url, handled by the early return);
`faviconUrl` and `title` are the best-effort tab metadata.  The
consent path suspends (`awaitConsent`) after emitting the permission
request and opening the consent popup; `onConsentResumed` picks up from
there. -/
def onMessageListener (svc : Dispatch) (st : ServiceState)
    (senderOrigin : Option String) (faviconUrl title : String)
    (ev : PortRequestEvent) : ListenerStep × List Effect :=
  match senderOrigin with
  | none => (.drop, [])
  | some origin =>
      let originPermission := checkPermission st origin none
      if isTallyConfigPayload ev.request then
        (.reply
          { id := sentinelId
            result := .jobj [("method", .jstr ev.request.method),
                             ("defaultWallet", .jbool st.defaultWallet)] },
         [])
      else if ev.request.method = "tally_setClaimReferrer" then
        match paramAt ev.request.params 0 with
        | .jstr referrer =>
            if origin = WEBSITE_ORIGIN then
              (.reply { id := ev.id, result := .jnull },
               [.emitSetClaimReferrer referrer])
            else (.drop, [])
        | _ => (.drop, [])
      else
        match originPermission with
        | some perm =>
            let routed := routeContentScriptRPCRequest svc perm
              ev.request.method ev.request.params
            (.reply { id := ev.id, result := routed.1 }, routed.2)
        | none =>
            if ev.request.method = "eth_requestAccounts" then
              let accountAddress := st.selectedAccount
              let permissionRequest : PermissionRequest :=
                { key := origin ++ "_" ++ accountAddress
                  origin := origin
                  faviconUrl := faviconUrl
                  title := title
                  state := "request"
                  accountAddress := accountAddress }
              (.awaitConsent permissionRequest,
               [.emitRequestPermission permissionRequest,
                .popupOpened AllowedQueryParamPage.dappPermission])
            else
              (.reply
                { id := ev.id
                  result := EIP1193ErrorJSON EIP1193_ERROR_CODES.unauthorized },
               [])

/-- The tail of `onMessageListener`'s consent path, resumed once the
pending-consent promise for the origin settles: re-check the (possibly
updated) store and either route an `eth_accounts` call with the persisted
grant or reply with the `userRejectedRequest` error. -/
def onConsentResumed (svc : Dispatch) (st : ServiceState) (origin : String)
    (ev : PortRequestEvent) : ListenerStep × List Effect :=
  match checkPermission st origin none with
  | some persistedPermission =>
      let routed := routeContentScriptRPCRequest svc persistedPermission
        "eth_accounts" ev.request.params
      (.reply { id := ev.id, result := routed.1 }, routed.2)
  | none =>
      (.reply
        { id := ev.id
          result := EIP1193ErrorJSON EIP1193_ERROR_CODES.userRejectedRequest },
       [])

/-- `notifyContentScriptAboutConfigChange(newDefaultWalletValue)`: pushes a
`tally_getConfig` message with the sentinel id to every open port. -/
def notifyContentScriptAboutConfigChange (st : ServiceState)
    (newDefaultWalletValue : Bool) : List (String × PortResponseEvent) :=
  st.openPorts.map fun origin =>
    (origin,
     { id := sentinelId
       result := .jobj [("method", .jstr "tally_getConfig"),
                        ("defaultWallet", .jbool newDefaultWalletValue)] })

/-- The JavaScript value of an optional string argument. -/
def jsonOfOptStr : Option String → JSON
  | none => .jundef
  | some s => .jstr s

/-- `notifyContentScriptsAboutAddressChange(newAddress?)`: pushes a
`tally_accountChanged` message with the sentinel id to every open port,
re-running the permission check against each port's own origin; ports
whose origin holds a grant for the selected account receive
`[newAddress]` (the literal one-element array, `[undefined]` when the
optional argument was not passed), the rest receive `[]`. -/
def notifyContentScriptsAboutAddressChange (st : ServiceState)
    (newAddress : Option String) : List (String × PortResponseEvent) :=
  st.openPorts.map fun origin =>
    if (checkPermission st origin none).isSome then
      (origin,
       { id := sentinelId
         result := .jobj [("method", .jstr "tally_accountChanged"),
                          ("address", .jarr [jsonOfOptStr newAddress])] })
    else
      (origin,
       { id := sentinelId
         result := .jobj [("method", .jstr "tally_accountChanged"),
                          ("address", .jarr [])] })

/-! ### Consent flow: request / grant / deny -/

/-- `requestPermission(permissionRequest)`: emits the request to the
consent UI, opens the permission popup, and registers the continuation of
the blocked call in the pending-consent table under the request's origin
(overwriting any binding already there).  The continuation is modelled by
the opaque `resolver` token. -/
def requestPermission (st : ServiceState) (permissionRequest : PermissionRequest)
    (resolver : Nat) : ServiceState × List Effect :=
  ({ st with pending := objSet st.pending permissionRequest.origin resolver },
   [.emitRequestPermission permissionRequest,
    .popupOpened AllowedQueryParamPage.dappPermission])

/-- `grantPermission(permission)`: when `state == "allow"` and
`accountAddress` is non-empty, persists the grant and resolves-and-removes
any pending consent continuation for the origin; otherwise does nothing. -/
def grantPermission (st : ServiceState) (permission : PermissionRequest) :
    ServiceState × List Effect :=
  if permission.state ≠ "allow" ∨ permission.accountAddress = "" then (st, [])
  else
    let st1 := { st with store := storePut st.store permission }
    match objGet st1.pending permission.origin with
    | some resolver =>
        ({ st1 with pending := objDel st1.pending permission.origin },
         [.resolvePending permission.origin resolver (.perm permission)])
    | none => (st1, [])

/-- `denyOrRevokePermission(permission)`: when `state == "deny"` and
`accountAddress` is non-empty, deletes the grant stored for
`(permission.origin, selectedAccount)`, resolves-and-removes any pending
consent continuation for the origin (with the string "Time to move on"),
and triggers an account-change broadcast (with no address argument);
otherwise does nothing.  Returns the new state, the effects, and the
broadcast messages. -/
def denyOrRevokePermission (st : ServiceState) (permission : PermissionRequest) :
    ServiceState × List Effect × List (String × PortResponseEvent) :=
  if permission.state ≠ "deny" ∨ permission.accountAddress = "" then (st, [], [])
  else
    let st1 :=
      { st with store := storeDelete st.store permission.origin st.selectedAccount }
    match objGet st1.pending permission.origin with
    | some resolver =>
        let st2 := { st1 with pending := objDel st1.pending permission.origin }
        (st2,
         [.resolvePending permission.origin resolver (.msg "Time to move on")],
         notifyContentScriptsAboutAddressChange st2 none)
    | none => (st1, [], notifyContentScriptsAboutAddressChange st1 none)

/-- The shape of a `tally_accountChanged` push message with the given
address payload. -/
def accountChangedMsg (payload : List JSON) : PortResponseEvent :=
  { id := sentinelId
    result := .jobj [("method", .jstr "tally_accountChanged"),
                     ("address", .jarr payload)] }

/-! ### Sample data used by witnesses -/

/-- A sample dispatch collaborator that always succeeds. -/
def sampleDispatch : Dispatch := fun _ _ => .ok .jnull

/-- A sample persisted grant. -/
def samplePermission : PermissionRequest :=
  { key := "https://a.example_0xabc"
    origin := "https://a.example"
    faviconUrl := ""
    title := ""
    state := "allow"
    accountAddress := "0xabc" }

/-- A sample service state with no grants and no pending requests. -/
def emptyState : ServiceState :=
  { store := []
    pending := []
    selectedAccount := "0xabc"
    defaultWallet := false
    openPorts := [] }

/-! ### Helper lemmas -/

theorem storeGet_cons (p : PermissionRequest) (s : List PermissionRequest)
    (origin address : String) :
    storeGet (p :: s) origin address =
      if p.origin = origin ∧ p.accountAddress = address then some p
      else storeGet s origin address := by
  by_cases h : p.origin = origin ∧ p.accountAddress = address
  · simp [storeGet, List.find?, h.1, h.2, h]
  · rcases not_and_or.mp h with h' | h' <;> simp [storeGet, List.find?, h', h]

theorem storeGet_storePut (s : Store) (g : PermissionRequest)
    (origin address : String) :
    storeGet (storePut s g) origin address =
      if g.origin = origin ∧ g.accountAddress = address then some g
      else storeGet s origin address := by
  induction s with
  | nil =>
      show storeGet [g] origin address = _
      rw [show ([g] : Store) = g :: [] from rfl, storeGet_cons]
  | cons p rest ih =>
      by_cases hp : p.origin = g.origin ∧ p.accountAddress = g.accountAddress
      · have hcond : (p.origin = g.origin && p.accountAddress = g.accountAddress) = true := by
          simp [hp.1, hp.2]
        rw [show storePut (p :: rest) g = g :: rest by simp [storePut, hcond]]
        rw [storeGet_cons, storeGet_cons]
        by_cases hg : g.origin = origin ∧ g.accountAddress = address
        · have hpg : p.origin = origin ∧ p.accountAddress = address :=
            ⟨hp.1.trans hg.1, hp.2.trans hg.2⟩
          simp [hg, hpg]
        · have hpg : ¬(p.origin = origin ∧ p.accountAddress = address) := by
            intro hc; exact hg ⟨hp.1.symm.trans hc.1, hp.2.symm.trans hc.2⟩
          simp [hg, hpg]
      · have hcond : (p.origin = g.origin && p.accountAddress = g.accountAddress) = false := by
          rcases not_and_or.mp hp with h' | h' <;> simp [h']
        rw [show storePut (p :: rest) g = p :: storePut rest g by
          simp [storePut, hcond]]
        rw [storeGet_cons, storeGet_cons, ih]
        by_cases hpm : p.origin = origin ∧ p.accountAddress = address
        · have hg : ¬(g.origin = origin ∧ g.accountAddress = address) := by
            intro hc
            exact hp ⟨hpm.1.trans hc.1.symm, hpm.2.trans hc.2.symm⟩
          simp [hpm, hg]
        · simp [hpm]

theorem storeGet_of_forall_ne (s : Store) (origin address : String)
    (h : ∀ g ∈ s, g.accountAddress ≠ address) :
    storeGet s origin address = none := by
  induction s with
  | nil => rfl
  | cons p rest ih =>
      rw [storeGet_cons]
      have hp : ¬(p.origin = origin ∧ p.accountAddress = address) := by
        intro hc
        exact h p (List.mem_cons_self p rest) hc.2
      rw [if_neg hp]
      exact ih fun g hg => h g (List.mem_cons_of_mem p hg)

theorem objGet_cons (e : String × Nat) (t : List (String × Nat)) (k : String) :
    objGet (e :: t) k = if e.1 = k then some e.2 else objGet t k := by
  by_cases h : e.1 = k <;> simp [objGet, List.find?, h]

theorem objSet_cons (e : String × Nat) (t : List (String × Nat)) (k : String)
    (v : Nat) :
    objSet (e :: t) k v =
      if e.1 = k then (k, v) :: t else e :: objSet t k v := by
  obtain ⟨k', v'⟩ := e
  by_cases h : k' = k <;> simp [objSet, h]

theorem objGet_objSet_self (t : Pending) (k : String) (v : Nat) :
    objGet (objSet t k v) k = some v := by
  induction t with
  | nil => simp [objSet, objGet, List.find?]
  | cons e rest ih =>
      rw [objSet_cons]
      by_cases he : e.1 = k
      · rw [if_pos he, objGet_cons]; simp
      · rw [if_neg he, objGet_cons, if_neg he]; exact ih

theorem countKey_cons (e : String × Nat) (t : List (String × Nat)) (k : String) :
    countKey (e :: t) k = (if e.1 = k then 1 else 0) + countKey t k := by
  by_cases h : e.1 = k
  · simp [countKey, List.filter, h]
    omega
  · simp [countKey, List.filter, h]

theorem countKey_eq_zero_of_not_mem (t : Pending) (k : String)
    (h : k ∉ t.map Prod.fst) : countKey t k = 0 := by
  induction t with
  | nil => rfl
  | cons e rest ih =>
      simp only [List.map_cons, List.mem_cons, not_or] at h
      rw [countKey_cons, if_neg (fun he => h.1 he.symm)]
      simpa using ih h.2

theorem countKey_objSet (t : Pending) (k : String) (v : Nat)
    (hnodup : (t.map Prod.fst).Nodup) :
    countKey (objSet t k v) k = 1 := by
  induction t with
  | nil => simp [objSet, countKey, List.filter]
  | cons e rest ih =>
      simp only [List.map_cons, List.nodup_cons] at hnodup
      obtain ⟨hnotin, hrest⟩ := hnodup
      rw [objSet_cons]
      by_cases he : e.1 = k
      · rw [if_pos he, countKey_cons, if_pos rfl,
          countKey_eq_zero_of_not_mem rest k (he ▸ hnotin)]
      · rw [if_neg he, countKey_cons, if_neg he, ih hrest]

theorem keys_objSet (t : Pending) (k : String) (v : Nat) :
    (objSet t k v).map Prod.fst = t.map Prod.fst ∨
    (objSet t k v).map Prod.fst = t.map Prod.fst ++ [k] := by
  induction t with
  | nil => right; rfl
  | cons e rest ih =>
      rw [objSet_cons]
      by_cases he : e.1 = k
      · left; rw [if_pos he, List.map_cons, List.map_cons, he]
      · rcases ih with ih | ih
        · left; rw [if_neg he, List.map_cons, List.map_cons, ih]
        · right; rw [if_neg he, List.map_cons, List.map_cons, ih]; rfl

theorem objGet_eq_none_iff (t : Pending) (k : String) :
    objGet t k = none ↔ k ∉ t.map Prod.fst := by
  induction t with
  | nil => simp [objGet, List.find?]
  | cons e rest ih =>
      rw [objGet_cons]
      by_cases he : e.1 = k
      · simp [he]
      · simp only [if_neg he, List.map_cons, List.mem_cons, not_or, ih]
        constructor
        · intro h; exact ⟨fun hk => he hk.symm, h⟩
        · intro h; exact h.2

theorem nodup_keys_objSet (t : Pending) (k : String) (v : Nat)
    (hnodup : (t.map Prod.fst).Nodup) :
    ((objSet t k v).map Prod.fst).Nodup := by
  induction t with
  | nil => simp [objSet]
  | cons e rest ih =>
      simp only [List.map_cons, List.nodup_cons] at hnodup
      obtain ⟨hnotin, hrest⟩ := hnodup
      rw [objSet_cons]
      by_cases he : e.1 = k
      · rw [if_pos he, List.map_cons]
        exact List.nodup_cons.mpr ⟨he ▸ hnotin, hrest⟩
      · rw [if_neg he, List.map_cons]
        refine List.nodup_cons.mpr ⟨?_, ih hrest⟩
        intro hmem
        rcases keys_objSet rest k v with hk | hk
        · exact hnotin (hk ▸ hmem)
        · rw [hk, List.mem_append, List.mem_singleton] at hmem
          rcases hmem with hmem | hmem
          · exact hnotin hmem
          · exact he hmem

theorem objGet_objDel (t : Pending) (k : String) :
    objGet (objDel t k) k = none := by
  have hfind : List.find? (fun e => decide (e.1 = k)) (objDel t k) = none := by
    apply List.find?_eq_none.mpr
    intro e he
    simp only [objDel, List.mem_filter] at he
    simpa using he.2
  simp [objGet, hfind]

/-! ### Claim theorems -/

/-- C4: For every call routed with a grant, the methods `eth_accounts` and
`eth_requestAccounts` return exactly the one-element list
`[grant.accountAddress]`, directly: no popup is opened and the internal
signing/network service is not invoked for them (the effect trace is
empty). -/
theorem accounts_return_grant_address_directly (svc : Dispatch)
    (enablingPermission : PermissionRequest) (method : String)
    (params : List JSON)
    (h : method = "eth_accounts" ∨ method = "eth_requestAccounts") :
    routeContentScriptRPCRequest svc enablingPermission method params =
      (.jarr [.jstr enablingPermission.accountAddress], []) := by
  rcases h with h | h <;> subst h <;>
    simp [routeContentScriptRPCRequest]

/-- Witness for C4: a concrete `eth_accounts` call under a grant for
account `0xabc`. -/
theorem accounts_return_grant_address_directly_witness :
    routeContentScriptRPCRequest sampleDispatch samplePermission
      "eth_accounts" [] = (.jarr [.jstr "0xabc"], []) :=
  accounts_return_grant_address_directly sampleDispatch samplePermission
    "eth_accounts" [] (Or.inl rfl)

/-- C1: For every inbound dApp RPC message from an origin with no persisted
grant, if the method is not `eth_requestAccounts`, the message is not an
internal wallet-config query, and it is not a `tally_setClaimReferrer`
message, the reply's result is the `unauthorized`-coded EIP-1193 error
object. -/
theorem no_grant_non_request_unauthorized (svc : Dispatch) (st : ServiceState)
    (origin faviconUrl title : String) (ev : PortRequestEvent)
    (hnogrant : checkPermission st origin none = none)
    (hnotcfg : isTallyConfigPayload ev.request = false)
    (hnotref : ev.request.method ≠ "tally_setClaimReferrer")
    (hnotreq : ev.request.method ≠ "eth_requestAccounts") :
    onMessageListener svc st (some origin) faviconUrl title ev =
      (.reply { id := ev.id
                result := EIP1193ErrorJSON EIP1193_ERROR_CODES.unauthorized },
       []) := by
  simp [onMessageListener, hnogrant, hnotcfg, hnotref, hnotreq]

/-- Witness for C1: a concrete `eth_getBalance` call from an origin with no
grant in an empty store. -/
theorem no_grant_non_request_unauthorized_witness :
    onMessageListener sampleDispatch emptyState (some "https://a.example") "" ""
      { id := .num 1, request := { method := "eth_getBalance", params := [] } } =
      (.reply { id := .num 1
                result := EIP1193ErrorJSON EIP1193_ERROR_CODES.unauthorized },
       []) :=
  no_grant_non_request_unauthorized sampleDispatch emptyState
    "https://a.example" "" ""
    { id := .num 1, request := { method := "eth_getBalance", params := [] } }
    rfl rfl (by decide) (by decide)

/-- C10: For every `tally_setClaimReferrer` message whose channel origin
differs from the fixed allowed website origin, or whose first parameter is
not a string, the handler returns before posting anything: no
`setClaimReferrer` event is emitted and no response envelope at all is
sent back on the channel. -/
theorem invalid_claim_referrer_dropped (svc : Dispatch) (st : ServiceState)
    (origin faviconUrl title : String) (ev : PortRequestEvent)
    (hmethod : ev.request.method = "tally_setClaimReferrer")
    (hguard : origin ≠ WEBSITE_ORIGIN ∨
      ∀ s, paramAt ev.request.params 0 ≠ .jstr s) :
    onMessageListener svc st (some origin) faviconUrl title ev =
      (.drop, []) := by
  have hnotcfg : isTallyConfigPayload ev.request = false := by
    simp [isTallyConfigPayload, hmethod]
  simp only [onMessageListener, hnotcfg, Bool.false_eq_true, if_false, hmethod,
    if_pos]
  cases hp : paramAt ev.request.params 0 with
  | jstr s =>
      rcases hguard with hg | hg
      · simp [hg]
      · exact absurd hp (hg s)
  | jnull => rfl
  | jundef => rfl
  | jbool b => rfl
  | jnum n => rfl
  | jarr xs => rfl
  | jobj fields => rfl

/-- Witness for C10: a concrete `tally_setClaimReferrer` message from an
origin that is not the allowed website origin. -/
theorem invalid_claim_referrer_dropped_witness :
    onMessageListener sampleDispatch emptyState (some "https://a.example") "" ""
      { id := .num 2
        request := { method := "tally_setClaimReferrer"
                     params := [.jstr "0xref"] } } = (.drop, []) :=
  invalid_claim_referrer_dropped sampleDispatch emptyState
    "https://a.example" "" ""
    { id := .num 2
      request := { method := "tally_setClaimReferrer"
                   params := [.jstr "0xref"] } }
    rfl (Or.inl (by decide))

/-- C8: For every call routed with a grant, the result returned to the page
is either the `userRejectedRequest`-coded error object, the grant's
one-element account list, or a value the internal service's dispatch
successfully produced — a raw internal error value is never returned. -/
theorem routed_result_never_raw_error (svc : Dispatch)
    (p : PermissionRequest) (method : String) (params : List JSON) :
    (routeContentScriptRPCRequest svc p method params).1 =
        EIP1193ErrorJSON EIP1193_ERROR_CODES.userRejectedRequest
      ∨ (routeContentScriptRPCRequest svc p method params).1 =
        .jarr [.jstr p.accountAddress]
      ∨ svc method params =
        .ok (routeContentScriptRPCRequest svc p method params).1 := by
  unfold routeContentScriptRPCRequest routeSafeRequest
  split_ifs with h1 h2 h3 h4
  · right; left; rfl
  · cases hc : checkPermissionSignTypedData (paramAt params 0) p with
    | error e => left; rfl
    | ok u =>
        cases hs : svc method params with
        | ok v => right; right; rfl
        | error e => left; rfl
  · cases hc : checkPermissionSign (paramAt params 1) p with
    | error e => left; rfl
    | ok u =>
        cases hs : svc method params with
        | ok v => right; right; rfl
        | error e => left; rfl
  · cases hc : checkPermissionSignTransaction (paramAt params 0) p with
    | error e => left; rfl
    | ok u =>
        cases hs : svc method params with
        | ok v => right; right; rfl
        | error e => left; rfl
  · cases hs : svc method params with
    | ok v => right; right; rfl
    | error e => left; rfl

/-- C2: For every signing-family call routed with a grant whose
`accountAddress` differs (after normalization) from the signer/from
address carried in the call parameters, the call fails: the effect trace
is empty — so the internal signing service's dispatch is never invoked —
and the response returned to the page is the `userRejectedRequest`-coded
error object. -/
theorem mismatched_signer_rejected_without_dispatch (svc : Dispatch)
    (p : PermissionRequest) (method : String) (params : List JSON) (s : String)
    (hmismatch : normalizeHex s ≠ normalizeHex p.accountAddress) :
    ((method = "eth_sign" ∨ method = "personal_sign") →
        paramAt params 1 = .jstr s →
        routeContentScriptRPCRequest svc p method params =
          (EIP1193ErrorJSON EIP1193_ERROR_CODES.userRejectedRequest, []))
  ∧ ((method = "eth_signTypedData" ∨ method = "eth_signTypedData_v1" ∨
      method = "eth_signTypedData_v3" ∨ method = "eth_signTypedData_v4") →
        paramAt params 0 = .jstr s →
        routeContentScriptRPCRequest svc p method params =
          (EIP1193ErrorJSON EIP1193_ERROR_CODES.userRejectedRequest, []))
  ∧ ((method = "eth_signTransaction" ∨ method = "eth_sendTransaction") →
        jsonField (paramAt params 0) "from" = .jstr s →
        routeContentScriptRPCRequest svc p method params =
          (EIP1193ErrorJSON EIP1193_ERROR_CODES.userRejectedRequest, []))  := by
  refine ⟨?_, ?_, ?_⟩
  · intro hm hp
    rcases hm with hm | hm <;> subst hm <;>
      simp [routeContentScriptRPCRequest, checkPermissionSign, hp, hmismatch]
  · intro hm hp
    rcases hm with hm | hm | hm | hm <;> subst hm <;>
      simp [routeContentScriptRPCRequest, checkPermissionSignTypedData, hp,
        hmismatch]
  · intro hm hp
    rcases hm with hm | hm <;> subst hm <;>
      simp [routeContentScriptRPCRequest, checkPermissionSignTransaction, hp,
        hmismatch]

/-- Witness for C2: a concrete `personal_sign` call carrying signer
`0xDEAD` under a grant for account `0xabc`. -/
theorem mismatched_signer_rejected_without_dispatch_witness :
    routeContentScriptRPCRequest sampleDispatch samplePermission
      "personal_sign" [.jstr "0xmessage", .jstr "0xDEAD"] =
      (EIP1193ErrorJSON EIP1193_ERROR_CODES.userRejectedRequest, []) :=
  (mismatched_signer_rejected_without_dispatch sampleDispatch samplePermission
      "personal_sign" [.jstr "0xmessage", .jstr "0xDEAD"] "0xDEAD"
      (by decide)).1 (Or.inr rfl) rfl

/-- C6: grants are keyed per (origin, account): the permission lookup
performed for every inbound dApp message consults the grant for the pair
(message origin, currently selected account); recording a grant for a
different account never makes that lookup succeed, and a store holding
only grants for other accounts yields no permission, so switching the
active account requires a fresh grant with no implicit carry-over. -/
theorem permission_lookup_keyed_per_account (st : ServiceState)
    (origin : String) :
    checkPermission st origin none = storeGet st.store origin st.selectedAccount
  ∧ (∀ g : PermissionRequest, g.accountAddress ≠ st.selectedAccount →
      ∀ s0 : Store, storeGet s0 origin st.selectedAccount = none →
        storeGet (storePut s0 g) origin st.selectedAccount = none)
  ∧ ((∀ g ∈ st.store, g.accountAddress ≠ st.selectedAccount) →
      checkPermission st origin none = none) := by
  refine ⟨rfl, ?_, ?_⟩
  · intro g hne s0 h0
    rw [storeGet_storePut, if_neg (fun hc => hne hc.2)]
    exact h0
  · intro h
    exact storeGet_of_forall_ne st.store origin st.selectedAccount h

/-- A grant for the same origin but a different account than the selected
one, used by the C6 witness. -/
def otherAccountPermission : PermissionRequest :=
  { key := "https://a.example_0xdef"
    origin := "https://a.example"
    faviconUrl := ""
    title := ""
    state := "allow"
    accountAddress := "0xdef" }

/-- A state whose store holds only `otherAccountPermission` while the
selected account is `0xabc`. -/
def otherAccountState : ServiceState :=
  { store := [otherAccountPermission]
    pending := []
    selectedAccount := "0xabc"
    defaultWallet := false
    openPorts := [] }

/-- Witness for C6: with only a grant for account `0xdef` on record and
`0xabc` selected, the lookup for the origin finds no permission. -/
theorem permission_lookup_keyed_per_account_witness :
    checkPermission otherAccountState "https://a.example" none = none :=
  (permission_lookup_keyed_per_account otherAccountState
    "https://a.example").2.2 (by decide)

/-- C5: `grantPermission` persists the permission only when its state is
"allow" and its `accountAddress` is non-empty, and in that case also
resolves and removes any pending consent continuation for its origin;
`denyOrRevokePermission` deletes the stored grant only when its state is
"deny" and its `accountAddress` is non-empty, resolves and removes any
pending continuation for the origin, and triggers the account-change
broadcast; when the guard fails, neither function changes the store or
the pending table, and no effect is produced. -/
theorem grant_deny_guard_behaviour (st : ServiceState)
    (permission : PermissionRequest) :
    ((permission.state = "allow" ∧ permission.accountAddress ≠ "") →
        (grantPermission st permission).1.store = storePut st.store permission
      ∧ (∀ r, objGet st.pending permission.origin = some r →
            (grantPermission st permission).1.pending =
              objDel st.pending permission.origin
          ∧ (grantPermission st permission).2 =
              [.resolvePending permission.origin r (.perm permission)]
          ∧ objGet (grantPermission st permission).1.pending
              permission.origin = none)
      ∧ (objGet st.pending permission.origin = none →
            (grantPermission st permission).1.pending = st.pending
          ∧ (grantPermission st permission).2 = []))
  ∧ (¬(permission.state = "allow" ∧ permission.accountAddress ≠ "") →
        grantPermission st permission = (st, []))
  ∧ ((permission.state = "deny" ∧ permission.accountAddress ≠ "") →
        (denyOrRevokePermission st permission).1.store =
          storeDelete st.store permission.origin st.selectedAccount
      ∧ (∀ r, objGet st.pending permission.origin = some r →
            (denyOrRevokePermission st permission).1.pending =
              objDel st.pending permission.origin
          ∧ (denyOrRevokePermission st permission).2.1 =
              [.resolvePending permission.origin r (.msg "Time to move on")]
          ∧ objGet (denyOrRevokePermission st permission).1.pending
              permission.origin = none)
      ∧ (objGet st.pending permission.origin = none →
            (denyOrRevokePermission st permission).1.pending = st.pending
          ∧ (denyOrRevokePermission st permission).2.1 = [])
      ∧ (denyOrRevokePermission st permission).2.2 =
          notifyContentScriptsAboutAddressChange
            (denyOrRevokePermission st permission).1 none)
  ∧ (¬(permission.state = "deny" ∧ permission.accountAddress ≠ "") →
        denyOrRevokePermission st permission = (st, [], [])) := by
  refine ⟨?_, ?_, ?_, ?_⟩
  · rintro ⟨hstate, haddr⟩
    have hguard : ¬(permission.state ≠ "allow" ∨ permission.accountAddress = "") := by
      simp [hstate, haddr]
    refine ⟨?_, ?_, ?_⟩
    · simp only [grantPermission, if_neg hguard]
      cases hr : objGet st.pending permission.origin <;> simp [hr]
    · intro r hr
      simp [grantPermission, if_neg hguard, hr, objGet_objDel]
    · intro hr
      simp [grantPermission, if_neg hguard, hr]
  · intro hguard
    have : permission.state ≠ "allow" ∨ permission.accountAddress = "" := by
      by_cases h1 : permission.state = "allow"
      · right
        by_cases h2 : permission.accountAddress = ""
        · exact h2
        · exact absurd ⟨h1, h2⟩ hguard
      · left; exact h1
    simp [grantPermission, this]
  · rintro ⟨hstate, haddr⟩
    have hguard : ¬(permission.state ≠ "deny" ∨ permission.accountAddress = "") := by
      simp [hstate, haddr]
    refine ⟨?_, ?_, ?_, ?_⟩
    · simp only [denyOrRevokePermission, if_neg hguard]
      cases hr : objGet st.pending permission.origin <;> simp [hr]
    · intro r hr
      simp [denyOrRevokePermission, if_neg hguard, hr, objGet_objDel]
    · intro hr
      simp [denyOrRevokePermission, if_neg hguard, hr]
    · simp only [denyOrRevokePermission, if_neg hguard]
      cases hr : objGet st.pending permission.origin <;> simp [hr]
  · intro hguard
    have : permission.state ≠ "deny" ∨ permission.accountAddress = "" := by
      by_cases h1 : permission.state = "deny"
      · right
        by_cases h2 : permission.accountAddress = ""
        · exact h2
        · exact absurd ⟨h1, h2⟩ hguard
      · left; exact h1
    simp [denyOrRevokePermission, this]

/-- A state with one pending consent continuation for the sample origin. -/
def pendingState : ServiceState :=
  { store := []
    pending := [("https://a.example", 7)]
    selectedAccount := "0xabc"
    defaultWallet := false
    openPorts := [] }

/-- Witness for C5: granting the sample permission while a continuation is
pending persists the grant, invokes exactly that continuation, and leaves
no pending entry for the origin. -/
theorem grant_deny_guard_behaviour_witness :
    (grantPermission pendingState samplePermission).1.store =
        storePut pendingState.store samplePermission
  ∧ (grantPermission pendingState samplePermission).2 =
      [.resolvePending "https://a.example" 7 (.perm samplePermission)]
  ∧ objGet (grantPermission pendingState samplePermission).1.pending
      "https://a.example" = none := by
  have h := (grant_deny_guard_behaviour pendingState samplePermission).1
    ⟨rfl, by decide⟩
  have h2 := h.2.1 7 rfl
  exact ⟨h.1, h2.2.1, h2.2.2⟩

/-- C7: the pending-consent table holds at most one continuation per
origin: a second consent wait registered for an origin that already has
one overwrites the first continuation rather than queuing it — after two
registrations the table holds exactly one resolver for the origin, namely
the second one — and grant-driven resolution honors exactly that one
resolver and removes the entry. -/
theorem pending_consent_single_resolver (st : ServiceState)
    (req : PermissionRequest) (r1 r2 : Nat)
    (hnodup : (st.pending.map Prod.fst).Nodup) :
    countKey ((requestPermission (requestPermission st req r1).1 req
        r2).1.pending) req.origin = 1
  ∧ objGet ((requestPermission (requestPermission st req r1).1 req
        r2).1.pending) req.origin = some r2
  ∧ (∀ perm : PermissionRequest, perm.origin = req.origin →
      perm.state = "allow" → perm.accountAddress ≠ "" →
        (grantPermission ((requestPermission (requestPermission st req
            r1).1 req r2).1) perm).2 =
          [.resolvePending req.origin r2 (.perm perm)]
      ∧ objGet ((grantPermission ((requestPermission (requestPermission st
            req r1).1 req r2).1) perm).1.pending) req.origin = none) := by
  have hkeys1 : (((objSet st.pending req.origin r1).map Prod.fst)).Nodup :=
    nodup_keys_objSet st.pending req.origin r1 hnodup
  refine ⟨?_, ?_, ?_⟩
  · exact countKey_objSet _ _ _ hkeys1
  · exact objGet_objSet_self _ _ _
  · intro perm ho hs ha
    have hguard : ¬(perm.state ≠ "allow" ∨ perm.accountAddress = "") := by
      simp [hs, ha]
    have hget : objGet (objSet (objSet st.pending req.origin r1) req.origin
        r2) req.origin = some r2 := objGet_objSet_self _ _ _
    constructor
    · simp [grantPermission, if_neg hguard, requestPermission, hget, ho]
    · simp [grantPermission, if_neg hguard, requestPermission, hget, ho,
        objGet_objDel]

/-- Witness for C7: two consecutive consent registrations for the sample
origin leave exactly one pending resolver, the second one, and granting
then honors it and clears the entry. -/
theorem pending_consent_single_resolver_witness :
    countKey ((requestPermission (requestPermission emptyState
        samplePermission 1).1 samplePermission 2).1.pending)
      "https://a.example" = 1
  ∧ objGet ((requestPermission (requestPermission emptyState
        samplePermission 1).1 samplePermission 2).1.pending)
      "https://a.example" = some 2 := by
  have h := pending_consent_single_resolver emptyState samplePermission 1 2
    (by simp [emptyState])
  exact ⟨h.1, h.2.1⟩

/-- C3 (amended): every account-change broadcast pushes a
`tally_accountChanged` message to every open channel, with the address
payload determined by re-running the permission check against that
channel's own origin: a channel whose origin has no grant receives an
empty address list, while a granted channel receives the one-element list
containing the broadcast's `newAddress` argument.  The broadcast
triggered by revoking a grant passes no address argument, so granted
channels receive a one-element list containing `undefined` there, not the
real address. -/
theorem account_change_broadcast_rechecks (st : ServiceState)
    (newAddress : Option String) :
    notifyContentScriptsAboutAddressChange st newAddress =
      st.openPorts.map (fun origin =>
        (origin,
         accountChangedMsg
           (if (checkPermission st origin none).isSome then
              [jsonOfOptStr newAddress]
            else [])))
  ∧ ∀ perm : PermissionRequest, perm.state = "deny" →
      perm.accountAddress ≠ "" →
      (denyOrRevokePermission st perm).2.2 =
        notifyContentScriptsAboutAddressChange
          (denyOrRevokePermission st perm).1 none := by
  constructor
  · unfold notifyContentScriptsAboutAddressChange
    congr 1
    funext origin
    by_cases h : (checkPermission st origin none).isSome <;>
      simp [h, accountChangedMsg]
  · intro perm h1 h2
    have hguard : ¬(perm.state ≠ "deny" ∨ perm.accountAddress = "") := by
      simp [h1, h2]
    simp only [denyOrRevokePermission, if_neg hguard]
    cases hr : objGet st.pending perm.origin <;> simp [hr]

/-- A second granted origin used by the revoke-broadcast scenario. -/
def grantB : PermissionRequest :=
  { key := "https://b.example_0xabc"
    origin := "https://b.example"
    faviconUrl := ""
    title := ""
    state := "allow"
    accountAddress := "0xabc" }

/-- A state with grants for two origins on the selected account `0xabc`
and an open channel to each. -/
def twoPortState : ServiceState :=
  { store := [samplePermission, grantB]
    pending := []
    selectedAccount := "0xabc"
    defaultWallet := false
    openPorts := ["https://a.example", "https://b.example"] }

/-- The revocation record for `grantB`. -/
def revokeB : PermissionRequest :=
  { key := "https://b.example_0xabc"
    origin := "https://b.example"
    faviconUrl := ""
    title := ""
    state := "deny"
    accountAddress := "0xabc" }

/-- Counterexample to C3 as stated: revoking `https://b.example`'s grant
broadcasts to the still-granted channel `https://a.example` a one-element
address list containing `undefined` — not the real (selected) address
`0xabc`. -/
theorem revoke_broadcast_undefined_counterexample :
    (denyOrRevokePermission twoPortState revokeB).2.2 =
      [("https://a.example", accountChangedMsg [.jundef]),
       ("https://b.example", accountChangedMsg [])]
  ∧ accountChangedMsg [.jundef] ≠ accountChangedMsg [.jstr "0xabc"] := by
  constructor
  · rfl
  · intro h
    simp [accountChangedMsg] at h

/-- Witness for the amended C3: the revoke of `grantB` triggers exactly
the account-change broadcast computed over the post-delete state with no
address argument. -/
theorem account_change_broadcast_rechecks_witness :
    (denyOrRevokePermission twoPortState revokeB).2.2 =
      notifyContentScriptsAboutAddressChange
        (denyOrRevokePermission twoPortState revokeB).1 none :=
  (account_change_broadcast_rechecks twoPortState none).2 revokeB rfl
    (by decide)

/-- Helper for C9: every reply the message listener posts carries the
request's own id, except the reply to an internal wallet-config query,
which carries the sentinel id. -/
theorem listener_reply_id_eq (svc : Dispatch) (st : ServiceState)
    (origin faviconUrl title : String) (ev : PortRequestEvent)
    (resp : PortResponseEvent) (effs : List Effect)
    (heq : onMessageListener svc st (some origin) faviconUrl title ev =
      (.reply resp, effs)) :
    resp.id =
      if isTallyConfigPayload ev.request = true then sentinelId else ev.id := by
  by_cases hcfg : isTallyConfigPayload ev.request = true
  · rw [if_pos hcfg]
    simp only [onMessageListener, hcfg, if_true] at heq
    injection heq with h1 h2
    injection h1 with h3
    rw [← h3]
  · rw [if_neg hcfg]
    simp only [onMessageListener, hcfg, Bool.false_eq_true, if_false] at heq
    by_cases href : ev.request.method = "tally_setClaimReferrer"
    · rw [if_pos href] at heq
      cases hp : paramAt ev.request.params 0 with
      | jstr s =>
          rw [hp] at heq
          dsimp only at heq
          by_cases hw : origin = WEBSITE_ORIGIN
          · rw [if_pos hw] at heq
            injection heq with h1 h2
            injection h1 with h3
            rw [← h3]
          · rw [if_neg hw] at heq
            injection heq with h1 h2
            exact absurd h1 (by simp)
      | jnull =>
          rw [hp] at heq
          dsimp only at heq
          injection heq with h1 h2
          exact absurd h1 (by simp)
      | jundef =>
          rw [hp] at heq
          dsimp only at heq
          injection heq with h1 h2
          exact absurd h1 (by simp)
      | jbool b =>
          rw [hp] at heq
          dsimp only at heq
          injection heq with h1 h2
          exact absurd h1 (by simp)
      | jnum n =>
          rw [hp] at heq
          dsimp only at heq
          injection heq with h1 h2
          exact absurd h1 (by simp)
      | jarr xs =>
          rw [hp] at heq
          dsimp only at heq
          injection heq with h1 h2
          exact absurd h1 (by simp)
      | jobj fields =>
          rw [hp] at heq
          dsimp only at heq
          injection heq with h1 h2
          exact absurd h1 (by simp)
    · rw [if_neg href] at heq
      cases hperm : checkPermission st origin none with
      | some perm =>
          rw [hperm] at heq
          injection heq with h1 h2
          injection h1 with h3
          rw [← h3]
      | none =>
          rw [hperm] at heq
          by_cases hreq : ev.request.method = "eth_requestAccounts"
          · rw [if_pos hreq] at heq
            injection heq with h1 h2
            exact absurd h1 (by simp)
          · rw [if_neg hreq] at heq
            injection heq with h1 h2
            injection h1 with h3
            rw [← h3]

/-- C9 (amended): for every inbound request that receives a reply, the
response envelope's id equals the request envelope's id, except the reply
to an internal wallet-config query, which — like the wallet-originated
config-change and account-change pushes — carries the fixed sentinel id
"tallyHo"; replies resumed from the consent flow also echo the request
id. -/
theorem reply_id_echo_except_config (svc : Dispatch) (st : ServiceState)
    (origin faviconUrl title : String) (ev : PortRequestEvent)
    (resp : PortResponseEvent) (effs : List Effect) :
    (isTallyConfigPayload ev.request = false →
      onMessageListener svc st (some origin) faviconUrl title ev =
        (.reply resp, effs) → resp.id = ev.id)
  ∧ (isTallyConfigPayload ev.request = true →
      onMessageListener svc st (some origin) faviconUrl title ev =
        (.reply resp, effs) → resp.id = sentinelId)
  ∧ (onConsentResumed svc st origin ev = (.reply resp, effs) →
      resp.id = ev.id)
  ∧ (∀ b o m, (o, m) ∈ notifyContentScriptAboutConfigChange st b →
      m.id = sentinelId)
  ∧ (∀ a o m, (o, m) ∈ notifyContentScriptsAboutAddressChange st a →
      m.id = sentinelId) := by
  refine ⟨?_, ?_, ?_, ?_, ?_⟩
  · intro hcfg heq
    have h := listener_reply_id_eq svc st origin faviconUrl title ev resp
      effs heq
    rwa [hcfg, if_neg (by simp)] at h
  · intro hcfg heq
    have h := listener_reply_id_eq svc st origin faviconUrl title ev resp
      effs heq
    rwa [if_pos hcfg] at h
  · intro heq
    unfold onConsentResumed at heq
    cases hperm : checkPermission st origin none with
    | some perm =>
        rw [hperm] at heq
        injection heq with h1 h2
        injection h1 with h3
        rw [← h3]
    | none =>
        rw [hperm] at heq
        injection heq with h1 h2
        injection h1 with h3
        rw [← h3]
  · intro b o m hm
    simp only [notifyContentScriptAboutConfigChange, List.mem_map] at hm
    obtain ⟨o', _, h⟩ := hm
    injection h with h1 h2
    rw [← h2]
  · intro a o m hm
    simp only [notifyContentScriptsAboutAddressChange, List.mem_map] at hm
    obtain ⟨o', _, h⟩ := hm
    by_cases hg : (checkPermission st o' none).isSome
    · rw [if_pos hg] at h
      injection h with h1 h2
      rw [← h2]
    · rw [if_neg hg] at h
      injection h with h1 h2
      rw [← h2]

/-- Counterexample to C9 as stated: the reply to an inbound
`tally_getConfig` request with id 7 carries the sentinel id "tallyHo"
instead of echoing 7, even though it is the reply to a request, not a
wallet-originated push. -/
theorem config_reply_uses_sentinel_counterexample :
    (onMessageListener sampleDispatch emptyState (some "https://a.example")
        "" ""
        { id := .num 7
          request := { method := "tally_getConfig", params := [] } }).1 =
      .reply { id := sentinelId
               result := .jobj [("method", .jstr "tally_getConfig"),
                                ("defaultWallet", .jbool false)] }
  ∧ sentinelId ≠ RId.num 7 :=
  ⟨rfl, by decide⟩

/-- Witness for the amended C9: a concrete non-config request with id 5
receives a reply that echoes id 5. -/
theorem reply_id_echo_except_config_witness :
    ({ id := RId.num 5
       result := EIP1193ErrorJSON EIP1193_ERROR_CODES.unauthorized } :
      PortResponseEvent).id = RId.num 5 :=
  (reply_id_echo_except_config sampleDispatch emptyState "https://a.example"
      "" ""
      { id := .num 5, request := { method := "eth_getBalance", params := [] } }
      { id := .num 5
        result := EIP1193ErrorJSON EIP1193_ERROR_CODES.unauthorized } []).1
    rfl rfl

end ProviderBridge
